import Mathlib

/-!
Verification of the conversation-orchestration core of the `zeya` maternal
health chatbot backend: danger-sign keyword classification, the registration
state machine, AI response generation with fallback, webhook acknowledgement
policy, conversation logging, and gestational-age computation.

All definitions are shallow embeddings of the Python source
(`backend/app/services/danger_signs.py`, `conversation_handler.py`,
`user_service.py`, `ai_engine.py`, `models/user.py`,
`api/endpoints/webhook.py`).
-/

namespace Zeya

/-! ## Regex engine

The danger-sign patterns in `danger_signs.py` use a small fragment of
the `re` fragment of Python: case-insensitive literal characters, `\s+`, optional groups
`(...)?` and `x?`, alternation `(...|...)`, and `\b` word boundaries at both
ends of every pattern.  We embed exactly that fragment, with the Python
backtracking order (alternation left first, optionals and `\s+` greedy) and
leftmost search, so `match.group()` — the literal matched substring — is
reproduced faithfully. -/

/-- Python `\w` on ASCII: letters, digits, underscore. -/
def isWordChar (c : Char) : Bool := c.isAlphanum || c = '_'

/-- Python `\s` on ASCII: space, tab, newline, carriage return, form feed,
vertical tab. -/
def isSpaceChar (c : Char) : Bool :=
  c = ' ' || c = '\t' || c = '\n' || c = '\r' || c = Char.ofNat 12 || c = Char.ofNat 11

/-- Regex body fragment used by the danger-sign patterns (the surrounding
`\b ... \b` anchors are handled by the search routine). -/
inductive RE where
  | eps : RE
  | lit (c : Char) : RE
  | seq (a b : RE) : RE
  | alt (a b : RE) : RE
  | opt (a : RE) : RE
  | wsPlus : RE
deriving Repr, DecidableEq

/-- The ASCII apostrophe character (code 39). -/
def apostropheChar : Char := Char.ofNat 39

/-- Remainders after consuming one or more whitespace characters,
shortest-consumed first. -/
def wsTails : List Char → List (List Char)
  | [] => []
  | x :: xs => if isSpaceChar x then xs :: wsTails xs else []

/-- All remainders after matching `r` against a prefix of `s`, in the Python
backtracking order: alternation tries the left branch first, `(...)?` and
`\s+` are greedy.  Literal characters compare case-insensitively
(`re.IGNORECASE`); pattern literals are stored lowercase. -/
def matchRE : RE → List Char → List (List Char)
  | .eps, s => [s]
  | .lit c, s =>
    match s with
    | [] => []
    | x :: xs => if x.toLower = c then [xs] else []
  | .seq a b, s => (matchRE a s).flatMap fun r => matchRE b r
  | .alt a b, s => matchRE a s ++ matchRE b s
  | .opt a, s => matchRE a s ++ [s]
  | .wsPlus, s => (wsTails s).reverse

/-- Whether the character at index `i` is a word character (out of range
counts as non-word, as at string edges in Python). -/
def wordAt (full : List Char) (i : Nat) : Bool :=
  match full.get? i with
  | some c => isWordChar c
  | none => false

/-- Python `\b`: a word boundary sits at position `i` iff exactly one of the
characters around the position is a word character. -/
def boundaryAt (full : List Char) (i : Nat) : Bool :=
  (if i = 0 then false else wordAt full (i - 1)) != wordAt full i

/-- End positions of matches of `body` starting at index `i`, in
backtracking order. -/
def matchEndsAt (body : RE) (full : List Char) (i : Nat) : List Nat :=
  (matchRE body (full.drop i)).map fun r => full.length - r.length

/-- First end position (in backtracking order) of a `\b body \b` match
starting at `i`, or `none`. -/
def searchFromIdx (body : RE) (full : List Char) (i : Nat) : Option Nat :=
  if boundaryAt full i then
    (matchEndsAt body full i).find? fun j => boundaryAt full j
  else none

/-- Leftmost `\b body \b` match span, as Python `re.search`. -/
def reSearchSpan (body : RE) (full : List Char) : Option (Nat × Nat) :=
  (List.range (full.length + 1)).findSome? fun i =>
    (searchFromIdx body full i).map fun j => (i, j)

/-- `re.search(pattern, s)` returning `match.group()` — the literal matched
substring — or `none`. -/
def reSearch (body : RE) (s : String) : Option String :=
  match reSearchSpan body s.data with
  | none => none
  | some (i, j) => some (String.mk ((s.data.drop i).take (j - i)))

/-- A sequence of case-insensitive literal characters. -/
def reStr (s : String) : RE := s.data.foldr (fun c r => RE.seq (RE.lit c) r) RE.eps

/-- Concatenation of a list of regex fragments. -/
def reCat (l : List RE) : RE := l.foldr RE.seq RE.eps

/-! ## Danger-sign patterns (`danger_signs.py` lines 18–74)

Each Python regex is transcribed constructor by constructor; all are of the
form `\b body \b` with `re.IGNORECASE`, so only the body is stored here. -/

/-- `DANGER_SIGN_PATTERNS`: the fixed category → pattern-list mapping, in
the insertion order of the source dict (Python dicts iterate in insertion order,
so category enumeration order is stable across calls). -/
def DANGER_SIGN_PATTERNS : List (String × List RE) :=
  [ ("bleeding",
     [ reCat [RE.opt (reCat [reStr "heavy", RE.wsPlus]), reStr "bleeding"],
       reCat [reStr "excessive", RE.wsPlus, reStr "blood"],
       reCat [reStr "blood", RE.wsPlus,
              RE.alt (reCat [reStr "clot", RE.opt (RE.lit 's')]) (reStr "loss")],
       reCat [reStr "kutoka", RE.wsPlus, reStr "damu"],
       reCat [reStr "damu", RE.wsPlus, reStr "nyingi"] ]),
    ("headache_vision",
     [ reCat [reStr "severe", RE.wsPlus, reStr "headache"],
       reCat [reStr "blurre", RE.opt (RE.lit 'd'), RE.wsPlus, reStr "vision"],
       reCat [reStr "vision", RE.wsPlus, RE.opt (reCat [reStr "is", RE.wsPlus]),
              reStr "blurre", RE.opt (RE.lit 'd')],
       reCat [reStr "seeing", RE.wsPlus,
              RE.alt (reCat [reStr "spot", RE.opt (RE.lit 's')])
                     (reCat [reStr "star", RE.opt (RE.lit 's')])],
       reCat [reStr "kichwa", RE.wsPlus, reStr "kuuma"],
       reCat [reStr "macho", RE.wsPlus, reStr "kuona", RE.wsPlus, reStr "vibaya"] ]),
    ("fever",
     [ reCat [reStr "high", RE.wsPlus, reStr "fever"],
       reCat [reStr "severe", RE.wsPlus, reStr "fever"],
       reStr "chills",
       reCat [reStr "homa", RE.wsPlus, reStr "kali"],
       reCat [reStr "baridi", RE.wsPlus, reStr "mwilini"] ]),
    ("fetal_movement",
     [ reCat [reStr "reduced", RE.wsPlus, reStr "fetal", RE.wsPlus, reStr "movement"],
       reCat [reStr "no", RE.wsPlus, RE.opt (reCat [reStr "fetal", RE.wsPlus]),
              reStr "movement"],
       reCat [reStr "baby", RE.wsPlus,
              RE.alt (reCat [reStr "not", RE.wsPlus, reStr "moving"])
                (RE.alt (reCat [reStr "stoppe", RE.opt (RE.lit 'd'), RE.wsPlus,
                                reStr "moving"])
                        (reCat [reStr "isn", RE.opt (RE.lit apostropheChar), reStr "t",
                                RE.wsPlus, reStr "moving"]))],
       reCat [reStr "can", RE.opt (RE.lit apostropheChar), reStr "t", RE.wsPlus,
              reStr "feel", RE.wsPlus, RE.opt (reCat [reStr "the", RE.wsPlus]),
              reStr "baby"],
       reCat [reStr "mtoto", RE.wsPlus, reStr "ha",
              RE.alt (reStr "tembei") (reStr "chezi")] ]),
    ("abdominal_pain",
     [ reCat [reStr "severe", RE.wsPlus,
              RE.opt (reCat [reStr "abdominal", RE.wsPlus]), reStr "pain"],
       reCat [reStr "stomach", RE.wsPlus, reStr "pain"],
       reCat [reStr "sharp", RE.wsPlus, reStr "pain"],
       reCat [reStr "tumbo", RE.wsPlus, reStr "kuuma", RE.wsPlus, reStr "sana"] ]),
    ("water_breaking",
     [ reCat [reStr "water", RE.wsPlus,
              RE.alt (reCat [reStr "break",
                             RE.opt (RE.alt (reStr "ing") (RE.lit 's'))])
                     (reStr "broke")],
       reCat [reStr "fluid", RE.wsPlus,
              RE.alt (reStr "leaking")
                     (RE.alt (reStr "leakage") (reStr "gushing"))],
       reCat [reStr "leaking", RE.wsPlus, reStr "fluid"],
       reCat [reStr "maji", RE.wsPlus, reStr "ya",
              RE.alt (reStr "mekatika") (reStr "kutoka")] ]),
    ("convulsions",
     [ reStr "convulsion",
       reStr "seizure",
       reCat [reStr "loss", RE.wsPlus, reStr "of", RE.wsPlus, reStr "consciousness"],
       reCat [reStr "faint", RE.alt (reStr "ed") (reStr "ing")],
       reCat [reStr "passe", RE.opt (RE.lit 'd'), RE.wsPlus, reStr "out"],
       reStr "degedege",
       reCat [reStr "kupoteza", RE.wsPlus, reStr "fahamu"] ]),
    ("swelling",
     [ reCat [reStr "severe", RE.wsPlus, reStr "swelling"],
       reCat [reStr "swollen", RE.wsPlus,
              RE.alt (reStr "face")
                     (RE.alt (reCat [reStr "hand", RE.opt (RE.lit 's')])
                             (reStr "feet"))],
       reCat [reStr "kuvimba", RE.wsPlus, reStr "sana"] ]) ]

/-! ## Danger-sign detection (`danger_signs.py` lines 119–154) -/

/-- Result of danger sign detection (`DangerSignResult`). -/
structure DangerSignResult where
  detected : Bool
  categories : List String
  keywords : List String
deriving Repr, DecidableEq

/-- `DangerSignResult.__bool__`. -/
def DangerSignResult.toBool (r : DangerSignResult) : Bool := r.detected

/-- The inner `for pattern in patterns` loop of `detect_danger_signs`: the
first pattern of the category that matches yields its matched text, and
scanning within the category stops (`break`). -/
def scanCategory (pats : List RE) (message : String) : Option String :=
  pats.findSome? fun p => reSearch p message

/-- One step of the outer `for category, patterns in ...` loop: on a match,
append the category if not already recorded, and always append the matched
keyword. -/
def detectStep (message : String) (acc : List String × List String)
    (cp : String × List RE) : List String × List String :=
  match scanCategory cp.2 message with
  | none => acc
  | some kw => ((if cp.1 ∈ acc.1 then acc.1 else acc.1 ++ [cp.1]), acc.2 ++ [kw])

/-- `detect_danger_signs`: scan a message for danger sign keywords. -/
def detect_danger_signs (message : String) : DangerSignResult :=
  let acc := DANGER_SIGN_PATTERNS.foldl (detectStep message) ([], [])
  { detected := decide (0 < acc.1.length), categories := acc.1, keywords := acc.2 }

/-- A text contains a registered phrase of a pattern set when some pattern
of the set matches somewhere in it; matching is case-insensitive and
word-boundary anchored by the semantics of `reSearch`. -/
def containsRegisteredPhrase (pats : List RE) (text : String) : Prop :=
  ∃ p ∈ pats, reSearch p text ≠ none

instance (pats : List RE) (text : String) :
    Decidable (containsRegisteredPhrase pats text) :=
  List.decidableBEx _ pats

/-! ## Python string primitives

Faithful (ASCII) models of the `str` operations used by the registration
flow: `.strip()`, `.lower()`, `.split()` and `int(...)` (which accepts an
optional sign and digits with single underscores between digits). -/

/-- `str.strip()`: remove leading and trailing whitespace. -/
def pyStrip (s : String) : String :=
  String.mk (((s.data.dropWhile isSpaceChar).reverse.dropWhile isSpaceChar).reverse)

/-- `str.lower()` (ASCII). -/
def pyLower (s : String) : String := String.mk (s.data.map Char.toLower)

/-- Accumulating splitter over characters: `cur` holds the reversed current
word. -/
def splitWsAux : List Char → List Char → List String
  | [], cur => if cur = [] then [] else [String.mk cur.reverse]
  | c :: rest, cur =>
    if isSpaceChar c then
      if cur = [] then splitWsAux rest []
      else String.mk cur.reverse :: splitWsAux rest []
    else splitWsAux rest (c :: cur)

/-- `str.split()` with no separator: split on runs of whitespace, dropping
empty pieces (so the empty and all-whitespace strings split to `[]`). -/
def pySplit (s : String) : List String := splitWsAux s.data []

/-- Digit tail of an integer literal: one digit, then digits each optionally preceded by one underscore;
between digits. -/
def pyDigitsAux : List Char → Nat → Option Nat
  | [], acc => some acc
  | '_' :: c :: rest, acc =>
    if c.isDigit then pyDigitsAux rest (acc * 10 + (c.toNat - 48)) else none
  | c :: rest, acc =>
    if c.isDigit then pyDigitsAux rest (acc * 10 + (c.toNat - 48)) else none

/-- Nonempty digit sequence with optional single underscores between digits. -/
def pyParseDigits : List Char → Option Nat
  | [] => none
  | c :: rest => if c.isDigit then pyDigitsAux rest (c.toNat - 48) else none

/-- `int(token)` on a whitespace-free token: optional sign, then digits
(with underscores allowed between digits); `none` models `ValueError`. -/
def pyInt? (s : String) : Option Int :=
  match s.data with
  | '+' :: rest => (pyParseDigits rest).map Int.ofNat
  | '-' :: rest => (pyParseDigits rest).map fun n => -(n : Int)
  | l => (pyParseDigits l).map Int.ofNat

/-! ## User model (`models/user.py`) and user service (`user_service.py`)

Timestamps and dates are modelled at day granularity as integers (day
ordinals); `timedelta(weeks=w)` is `7 * w` days. -/

/-- The `users` table fields the conversation core reads and writes. -/
structure User where
  phone_number : String
  whatsapp_id : String
  name : Option String
  gestational_age_at_enrollment : Option Int
  expected_delivery_date : Option Int
  enrolled_at : Int
  is_active : Bool
  language_preference : String
  registration_complete : Bool
  consent_given : Bool
  consent_given_at : Option Int
deriving Repr, DecidableEq

/-- `User.current_gestational_age`: `None` when enrollment gestational age
is unset, otherwise the enrollment value plus whole weeks elapsed since
enrollment (`(now - enrolled_at).days // 7`, Python floor division). -/
def User.current_gestational_age (u : User) (now : Int) : Option Int :=
  match u.gestational_age_at_enrollment with
  | none => none
  | some ga => some (ga + Int.fdiv (now - u.enrolled_at) 7)

/-- A user freshly created by `UserService.create_user` from an incoming
message (`ConversationHandler._create_new_user`): model defaults of the
`users` table columns. -/
def newUser (phone whatsappId : String) (now : Int) : User :=
  { phone_number := phone
    whatsapp_id := whatsappId
    name := none
    gestational_age_at_enrollment := none
    expected_delivery_date := none
    enrolled_at := now
    is_active := true
    language_preference := "en"
    registration_complete := false
    consent_given := false
    consent_given_at := none }

/-- `UserService.set_gestational_age`: store the weeks value and set the
expected delivery date to `date.today() + timedelta(weeks=40 - weeks)`. -/
def set_gestational_age (today : Int) (u : User) (weeks : Int) : User :=
  { u with gestational_age_at_enrollment := some weeks
           expected_delivery_date := some (today + 7 * (40 - weeks)) }

/-! ## Registration state machine (`conversation_handler.py` lines 178–252) -/

/-- Derived registration state (spec §3): computed from the subscriber
fields in the order `_handle_registration` tests them. -/
inductive RegistrationState where
  | awaiting_consent
  | awaiting_name
  | awaiting_gestational_age
  | registered
deriving Repr, DecidableEq

/-- Progress rank of a derived registration state. -/
def RegistrationState.rank : RegistrationState → Nat
  | .awaiting_consent => 0
  | .awaiting_name => 1
  | .awaiting_gestational_age => 2
  | .registered => 3

/-- The derived registration state of a subscriber. -/
def registrationState (u : User) : RegistrationState :=
  if u.consent_given = false then .awaiting_consent
  else if u.name = none then .awaiting_name
  else if u.gestational_age_at_enrollment = none then .awaiting_gestational_age
  else .registered

/-- Affirmative consent tokens (`("yes", "ndiyo", "ndio")`). -/
def AFFIRMATIVE_TOKENS : List String := ["yes", "ndiyo", "ndio"]

/-- Negative consent tokens (`("no", "hapana")`). -/
def NEGATIVE_TOKENS : List String := ["no", "hapana"]

/-- Reply sent after an affirmative consent. -/
def ASK_NAME_MESSAGE : String :=
  "Thank you for consenting to participate! What is your name?"

/-- Closing message sent to a declining subscriber. -/
def DECLINE_MESSAGE : String :=
  "Thank you for your response. You can message us anytime if you change your mind. Take care, Mama!"

/-- YES/NO re-prompt for an unrecognized consent reply. -/
def CONSENT_REPROMPT : String :=
  "Please reply YES or NO to consent to participate in the study."

/-- Prompt asking for the gestational age, sent after the name is stored. -/
def askGestationalAgeMessage (name : String) : String :=
  s!"Nice to meet you, {name}! How many weeks pregnant are you? Please reply with a number (for example: 20)."

/-- Re-prompt for an unparseable or out-of-range gestational age. -/
def GA_REPROMPT : String :=
  "Please enter a valid number of weeks (between 1 and 42). For example: 20"

/-- Confirmation + capability summary after successful registration; the
source renders the expected delivery date with `strftime("%B %d, %Y")`,
modelled here by the decimal rendering of the day ordinal. -/
def registeredMessage (weeks : Int) (edd : Option Int) : String :=
  let eddText := match edd with
    | some d => toString d
    | none => "to be determined"
  s!"You are registered! You are {weeks} weeks pregnant. Your expected delivery date is approximately {eddText}." ++
    "\n\nYou can now ask me any questions about your pregnancy. I can help with:\n" ++
    "- Nutrition and diet\n- Danger signs to watch for\n- Birth preparedness\n" ++
    "- Common discomforts\n- ANC appointments\n- Newborn care\n\n" ++
    "Just type your question and I will do my best to help you, Mama!"

/-- `int(text_lower.strip().split()[0])`: first whitespace-delimited token
parsed as an integer; `none` models both `IndexError` (no token) and
`ValueError` (not an integer). -/
def parseFirstTokenInt (text_lower : String) : Option Int :=
  match pySplit (pyStrip text_lower) with
  | [] => none
  | tok :: _ => pyInt? tok

/-- `ConversationHandler._handle_registration`: one step of the
registration flow; returns the updated user and the messages sent, in
order.  `today` is `date.today()` and `now` is `datetime.now(timezone.utc)`
(both as day ordinals). -/
def handle_registration (today now : Int) (user : User) (text : String) :
    User × List String :=
  let text_lower := pyLower (pyStrip text)
  if user.consent_given = false then
    if text_lower ∈ AFFIRMATIVE_TOKENS then
      ({ user with consent_given := true, consent_given_at := some now },
       [ASK_NAME_MESSAGE])
    else if text_lower ∈ NEGATIVE_TOKENS then
      ({ user with is_active := false }, [DECLINE_MESSAGE])
    else
      (user, [CONSENT_REPROMPT])
  else if user.name = none then
    ({ user with name := some (pyStrip text) },
     [askGestationalAgeMessage (pyStrip text)])
  else if user.gestational_age_at_enrollment = none then
    match parseFirstTokenInt text_lower with
    | none => (user, [GA_REPROMPT])
    | some weeks =>
      if weeks < 1 ∨ 42 < weeks then (user, [GA_REPROMPT])
      else
        let u := { set_gestational_age today user weeks with
                     registration_complete := true }
        (u, [registeredMessage weeks u.expected_delivery_date])
  else
    (user, [])

/-- A subscriber who has consented and given her name, used as a concrete
test input: awaiting gestational age. -/
def aminaUser : User :=
  { newUser "p" "w" 0 with consent_given := true, name := some "Amina" }

/-! ## AI engine (`ai_engine.py`)

The external `client.models.generate_content` call is abstracted by its
observable outcome: it either raises, or returns a response whose `.text`
is absent, empty, or a non-empty string.  The Redis context window is the
explicit list `history` (newest first). -/

/-- Outcome of the underlying generative call. -/
inductive GenOutcome where
  | error : GenOutcome
  | ok : Option String → GenOutcome
deriving Repr, DecidableEq

/-- `MAX_CONTEXT_TURNS`. -/
def MAX_CONTEXT_TURNS : Nat := 6

/-- `AIEngine._get_fallback_response` for Swahili. -/
def FALLBACK_SW : String :=
  "Samahani, siwezi kukusaidia kwa wakati huu. Tafadhali jaribu tena baadaye. " ++
  "Ikiwa una dharura ya kimatibabu, tafadhali nenda hospitali iliyo karibu nawe mara moja."

/-- `AIEngine._get_fallback_response` for English. -/
def FALLBACK_EN : String :=
  "I am sorry, I am unable to help right now. Please try again later. " ++
  "If you have a medical emergency, please go to your nearest health facility immediately."

/-- `AIEngine._get_fallback_response`. -/
def get_fallback_response (language : String) : String :=
  if language = "sw" then FALLBACK_SW else FALLBACK_EN

/-- `AIEngine._store_conversation_turn`: push the formatted turn to the
front of the context window and truncate to `MAX_CONTEXT_TURNS` entries
(the 24-hour expiry reset is not observable at this level). -/
def store_conversation_turn (history : List String)
    (user_message ai_response : String) : List String :=
  (("User: " ++ user_message ++ "\nAssistant: " ++ ai_response) :: history).take
    MAX_CONTEXT_TURNS

/-- `AIEngine.generate_response`: returns the reply text and the context
window after the call.  On a raised generative-call error the fallback is
returned and the context window is untouched (the `except` branch returns
before `_store_conversation_turn`); on a returned response the reply is the
stripped text when non-empty, else the fallback, and the turn is stored. -/
def generate_response (outcome : GenOutcome) (user_message language : String)
    (history : List String) : String × List String :=
  match outcome with
  | .error => (get_fallback_response language, history)
  | .ok t =>
    let ai_response :=
      match t with
      | some s => if s = "" then get_fallback_response language else pyStrip s
      | none => get_fallback_response language
    (ai_response, store_conversation_turn history user_message ai_response)

/-! ## Webhook endpoint (`api/endpoints/webhook.py`) -/

/-- Parsed WhatsApp incoming message (`schemas/webhook.py`). -/
structure WhatsAppMessage where
  from_number : String
  whatsapp_id : String
  message_id : String
  message_type : String
  text : Option String
  timestamp : String
deriving Repr, DecidableEq

/-- HTTP response of the webhook POST handler: status code and the
`status` field of the returned JSON body. -/
structure WebhookResponse where
  statusCode : Nat
  status : String
deriving Repr, DecidableEq

/-- `receive_webhook` (POST): the route is declared with
`status_code=200`; every branch returns a JSON body, so the status code is
200 whether the signature check fails, the payload parses to no message, or
downstream processing raises. -/
def receive_webhook (secretConfigured sigValid : Bool)
    (parsed : Option WhatsAppMessage) (processingRaises : Bool) : WebhookResponse :=
  if secretConfigured && !sigValid then ⟨200, "error"⟩
  else
    match parsed with
    | none => ⟨200, "ok"⟩
    | some _ => if processingRaises then ⟨200, "error"⟩ else ⟨200, "ok"⟩

/-! ## Conversation orchestrator (`conversation_handler.py` lines 55–277) -/

/-- Characterization of the `detect_danger_signs` double loop: provided the
pending category keys are distinct and not yet recorded, the fold appends,
in category enumeration order, the key of every category with a matching
pattern, and the matched text of the first matching pattern of each. -/
lemma detect_foldl (text : String) (l : List (String × List RE)) :
    ∀ (acc : List String × List String),
      (∀ k ∈ l.map Prod.fst, k ∉ acc.1) → (l.map Prod.fst).Nodup →
      l.foldl (detectStep text) acc =
        (acc.1 ++ (l.filter fun cp => (scanCategory cp.2 text).isSome).map Prod.fst,
         acc.2 ++ l.filterMap fun cp => scanCategory cp.2 text) := by
  induction l with
  | nil => intro acc _ _; simp
  | cons hd tl ih =>
    intro acc h hnd
    obtain ⟨c, ps⟩ := hd
    simp only [List.map_cons, List.nodup_cons, List.mem_cons] at h hnd
    have hc : c ∉ acc.1 := h c (Or.inl rfl)
    simp only [List.foldl_cons, List.filter_cons, List.filterMap_cons]
    cases hsc : scanCategory ps text with
    | none =>
      have hstep : detectStep text acc (c, ps) = acc := by
        simp only [detectStep, hsc]
      rw [hstep, ih acc (fun k hk => h k (Or.inr hk)) hnd.2]
      simp [hsc]
    | some kw =>
      have hstep : detectStep text acc (c, ps) = (acc.1 ++ [c], acc.2 ++ [kw]) := by
        simp only [detectStep, hsc, if_neg hc]
      have hacc : ∀ k ∈ tl.map Prod.fst, k ∉ acc.1 ++ [c] := by
        intro k hk
        simp only [List.mem_append, List.mem_singleton]
        rintro (hk1 | rfl)
        · exact h k (Or.inr hk) hk1
        · exact hnd.1 hk
      rw [hstep, ih (acc.1 ++ [c], acc.2 ++ [kw]) hacc hnd.2]
      simp [hsc]

/-- The category keys of `DANGER_SIGN_PATTERNS` are pairwise distinct. -/
lemma danger_keys_nodup : (DANGER_SIGN_PATTERNS.map Prod.fst).Nodup := by decide

/-- Closed form of `detect_danger_signs`: categories are the keys of the
matched categories in enumeration order, keywords are the first matched
substrings of those categories. -/
lemma detect_eq (text : String) :
    detect_danger_signs text =
      { detected := decide (0 < ((DANGER_SIGN_PATTERNS.filter fun cp =>
          (scanCategory cp.2 text).isSome).map Prod.fst).length),
        categories := (DANGER_SIGN_PATTERNS.filter fun cp =>
          (scanCategory cp.2 text).isSome).map Prod.fst,
        keywords := DANGER_SIGN_PATTERNS.filterMap fun cp => scanCategory cp.2 text } := by
  have := detect_foldl text DANGER_SIGN_PATTERNS ([], [])
    (by intro k _ hk; exact (List.not_mem_nil k) hk) danger_keys_nodup
  simp only [detect_danger_signs, this, List.nil_append]

/-- `filterMap` keeps exactly the elements whose image is `some`. -/
lemma length_filterMap_eq_filter {α β : Type _} (f : α → Option β) (l : List α) :
    (l.filterMap f).length = (l.filter fun a => (f a).isSome).length := by
  induction l with
  | nil => simp
  | cons hd tl ih =>
    cases hf : f hd <;>
      simp [List.filterMap_cons, List.filter_cons, hf, ih]

/-- C1: for every input text, `detect_danger_signs` reports `detected = true`
with the category recorded whenever the text contains a registered phrase of
the pattern set of that category (case-insensitive, word-boundary matching); and
whenever the text contains no registered phrase of any category the result
is `detected = false` with empty category and keyword lists. -/
theorem C1_detect_danger_signs_correct (text : String) :
    (∀ cat pats, (cat, pats) ∈ DANGER_SIGN_PATTERNS →
        containsRegisteredPhrase pats text →
        (detect_danger_signs text).detected = true ∧
          cat ∈ (detect_danger_signs text).categories) ∧
    ((∀ cp ∈ DANGER_SIGN_PATTERNS, ¬ containsRegisteredPhrase cp.2 text) →
        detect_danger_signs text = ⟨false, [], []⟩) := by
  constructor
  · intro cat pats hmem hphrase
    have hsome : (scanCategory pats text).isSome := by
      rw [Option.isSome_iff_ne_none]
      intro hnone
      obtain ⟨p, hp, hps⟩ := hphrase
      exact hps (List.findSome?_eq_none_iff.mp hnone p hp)
    have hcat : cat ∈ (detect_danger_signs text).categories := by
      rw [detect_eq]
      exact List.mem_map.mpr ⟨(cat, pats), List.mem_filter.mpr ⟨hmem, hsome⟩, rfl⟩
    refine ⟨?_, hcat⟩
    rw [detect_eq] at hcat ⊢
    exact decide_eq_true (List.length_pos.mpr (List.ne_nil_of_mem hcat))
  · intro hnone
    have hsnone : ∀ cp ∈ DANGER_SIGN_PATTERNS, scanCategory cp.2 text = none := by
      intro cp hcp
      unfold scanCategory
      rw [List.findSome?_eq_none_iff]
      intro p hp
      by_contra hne
      exact hnone cp hcp ⟨p, hp, hne⟩
    have hfil : (DANGER_SIGN_PATTERNS.filter fun cp =>
        (scanCategory cp.2 text).isSome) = [] := by
      rw [List.filter_eq_nil_iff]
      intro cp hcp
      simp [hsnone cp hcp]
    have hfm : (DANGER_SIGN_PATTERNS.filterMap fun cp => scanCategory cp.2 text) = [] :=
      List.filterMap_eq_nil_iff.mpr hsnone
    rw [detect_eq, hfil, hfm]
    rfl

/-- Witness for C1 at concrete inputs: "I have heavy bleeding" contains the
registered phrase `heavy bleeding` of category `bleeding` and is detected;
"severe painter" contains no registered phrase (the `pain` patterns do not
match inside `painter`) and yields the empty result. -/
theorem C1_detect_danger_signs_correct_witness :
    ((detect_danger_signs "I have heavy bleeding").detected = true ∧
      "bleeding" ∈ (detect_danger_signs "I have heavy bleeding").categories) ∧
    detect_danger_signs "severe painter" = ⟨false, [], []⟩ :=
  ⟨(C1_detect_danger_signs_correct "I have heavy bleeding").1 "bleeding"
      (DANGER_SIGN_PATTERNS.get ⟨0, by decide⟩).2 (by decide) (by decide),
   (C1_detect_danger_signs_correct "severe painter").2 (by decide)⟩

/-- C2: for every input text the result of `detect_danger_signs` lists each
matched category exactly once, in first-match order over the fixed stable
category enumeration order; exactly one matched substring is recorded per
matched category (the match of its first matching pattern, scanning continuing
with the next category), so keywords and categories have equal length; and
boolean coercion is true iff at least one category matched. -/
theorem C2_detect_result_shape (text : String) :
    ((detect_danger_signs text).categories =
        (DANGER_SIGN_PATTERNS.filter fun cp =>
          (scanCategory cp.2 text).isSome).map Prod.fst) ∧
    ((detect_danger_signs text).keywords =
        DANGER_SIGN_PATTERNS.filterMap fun cp => scanCategory cp.2 text) ∧
    (detect_danger_signs text).categories.Nodup ∧
    (detect_danger_signs text).keywords.length =
      (detect_danger_signs text).categories.length ∧
    ((detect_danger_signs text).toBool = true ↔
      (detect_danger_signs text).categories ≠ []) := by
  rw [detect_eq]
  refine ⟨rfl, rfl, ?_, ?_, ?_⟩
  · exact List.Nodup.sublist
      (List.Sublist.map Prod.fst (List.filter_sublist _)) danger_keys_nodup
  · rw [List.length_map, length_filterMap_eq_filter]
  · simp only [DangerSignResult.toBool, decide_eq_true_eq]
    rw [List.length_pos]

/-- C3: for a subscriber awaiting gestational age (consent given, name set,
gestational age unset), the first whitespace-delimited token of the reply is
parsed as an integer; a value in 1..42 sets the enrollment gestational age,
sets the expected delivery date to today plus (40 − weeks) weeks, and marks
registration complete; on parse failure or an out-of-range value the
subscriber is unchanged and the gestational-age question is re-prompted. -/
theorem C3_gestational_age_step (today now : Int) (u : User) (text : String)
    (hc : u.consent_given = true) (hn : u.name ≠ none)
    (hg : u.gestational_age_at_enrollment = none) :
    (∀ w, parseFirstTokenInt (pyLower (pyStrip text)) = some w → 1 ≤ w → w ≤ 42 →
      handle_registration today now u text =
        ({ u with gestational_age_at_enrollment := some w,
                  expected_delivery_date := some (today + 7 * (40 - w)),
                  registration_complete := true },
         [registeredMessage w (some (today + 7 * (40 - w)))])) ∧
    (parseFirstTokenInt (pyLower (pyStrip text)) = none →
      handle_registration today now u text = (u, [GA_REPROMPT])) ∧
    (∀ w, parseFirstTokenInt (pyLower (pyStrip text)) = some w → (w < 1 ∨ 42 < w) →
      handle_registration today now u text = (u, [GA_REPROMPT])) := by
  have h1 : ¬ (u.consent_given = false) := by simp [hc]
  refine ⟨?_, ?_, ?_⟩
  · intro w hw hlo hhi
    unfold handle_registration
    rw [if_neg h1, if_neg hn, if_pos hg, hw]
    dsimp only
    rw [if_neg (by omega : ¬ (w < 1 ∨ 42 < w))]
    simp [set_gestational_age]
  · intro hw
    unfold handle_registration
    rw [if_neg h1, if_neg hn, if_pos hg, hw]
  · intro w hw hout
    unfold handle_registration
    rw [if_neg h1, if_neg hn, if_pos hg, hw]
    dsimp only
    rw [if_pos hout]

/-- Witness for C3: with consent given and name set, reply "20" registers
the subscriber with a delivery date 140 days (20 weeks) from today, while
"45" and "twenty" leave the subscriber unchanged and re-prompt. -/
theorem C3_gestational_age_step_witness :
    (handle_registration 800 800 aminaUser "20" =
      ({ aminaUser with gestational_age_at_enrollment := some 20,
                        expected_delivery_date := some 940,
                        registration_complete := true },
       [registeredMessage 20 (some 940)])) ∧
    (handle_registration 800 800 aminaUser "45" = (aminaUser, [GA_REPROMPT])) ∧
    (handle_registration 800 800 aminaUser "twenty" = (aminaUser, [GA_REPROMPT])) := by
  refine ⟨?_, ?_, ?_⟩
  · have h := (C3_gestational_age_step 800 800 aminaUser "20"
      (by decide) (by decide) (by decide)).1 20 (by decide) (by decide) (by decide)
    norm_num at h
    exact h
  · exact (C3_gestational_age_step 800 800 aminaUser "45"
      (by decide) (by decide) (by decide)).2.2 45 (by decide) (by decide)
  · exact (C3_gestational_age_step 800 800 aminaUser "twenty"
      (by decide) (by decide) (by decide)).2.1 (by decide)

/-- The affirmative and negative consent token sets are disjoint. -/
lemma tokens_disjoint : ∀ x ∈ NEGATIVE_TOKENS, x ∉ AFFIRMATIVE_TOKENS := by decide

/-- Consent branch, affirmative reply. -/
lemma hr_consent_yes (today now : Int) (u : User) (text : String)
    (h1 : u.consent_given = false)
    (h2 : pyLower (pyStrip text) ∈ AFFIRMATIVE_TOKENS) :
    handle_registration today now u text =
      ({ u with consent_given := true, consent_given_at := some now },
       [ASK_NAME_MESSAGE]) := by
  simp only [handle_registration]
  rw [if_pos h1, if_pos h2]

/-- Consent branch, negative reply. -/
lemma hr_consent_no (today now : Int) (u : User) (text : String)
    (h1 : u.consent_given = false)
    (h2 : pyLower (pyStrip text) ∈ NEGATIVE_TOKENS) :
    handle_registration today now u text =
      ({ u with is_active := false }, [DECLINE_MESSAGE]) := by
  simp only [handle_registration]
  rw [if_pos h1, if_neg (tokens_disjoint _ h2), if_pos h2]

/-- Consent branch, unrecognized reply. -/
lemma hr_consent_other (today now : Int) (u : User) (text : String)
    (h1 : u.consent_given = false)
    (h2 : pyLower (pyStrip text) ∉ AFFIRMATIVE_TOKENS)
    (h3 : pyLower (pyStrip text) ∉ NEGATIVE_TOKENS) :
    handle_registration today now u text = (u, [CONSENT_REPROMPT]) := by
  simp only [handle_registration]
  rw [if_pos h1, if_neg h2, if_neg h3]

/-- Name branch: any reply is stored (trimmed) as the name. -/
lemma hr_name (today now : Int) (u : User) (text : String)
    (h1 : ¬ u.consent_given = false) (h2 : u.name = none) :
    handle_registration today now u text =
      ({ u with name := some (pyStrip text) },
       [askGestationalAgeMessage (pyStrip text)]) := by
  simp only [handle_registration]
  rw [if_neg h1, if_pos h2]

/-- C4: for a subscriber awaiting consent, the reply is trimmed and
lowercased; an affirmative token sets consent (stamping the consent
timestamp) and asks for the name; a negative token deactivates the
subscriber with a closing message; anything else leaves the subscriber
unchanged and re-prompts for YES/NO. -/
theorem C4_consent_step (today now : Int) (u : User) (text : String)
    (hc : u.consent_given = false) :
    (pyLower (pyStrip text) ∈ AFFIRMATIVE_TOKENS →
      handle_registration today now u text =
        ({ u with consent_given := true, consent_given_at := some now },
         [ASK_NAME_MESSAGE])) ∧
    (pyLower (pyStrip text) ∈ NEGATIVE_TOKENS →
      handle_registration today now u text =
        ({ u with is_active := false }, [DECLINE_MESSAGE])) ∧
    (pyLower (pyStrip text) ∉ AFFIRMATIVE_TOKENS →
      pyLower (pyStrip text) ∉ NEGATIVE_TOKENS →
      handle_registration today now u text = (u, [CONSENT_REPROMPT])) :=
  ⟨hr_consent_yes today now u text hc,
   hr_consent_no today now u text hc,
   hr_consent_other today now u text hc⟩

/-- Witness for C4: a fresh subscriber replying "YES" gains consent and is
asked for a name, replying "NO" is deactivated with the closing message,
and replying "maybe" is unchanged and re-prompted. -/
theorem C4_consent_step_witness :
    (handle_registration 800 800 (newUser "p" "w" 0) "YES" =
      ({ newUser "p" "w" 0 with consent_given := true, consent_given_at := some 800 },
       [ASK_NAME_MESSAGE])) ∧
    (handle_registration 800 800 (newUser "p" "w" 0) "NO" =
      ({ newUser "p" "w" 0 with is_active := false }, [DECLINE_MESSAGE])) ∧
    (handle_registration 800 800 (newUser "p" "w" 0) "maybe" =
      (newUser "p" "w" 0, [CONSENT_REPROMPT])) :=
  ⟨(C4_consent_step 800 800 (newUser "p" "w" 0) "YES" (by decide)).1 (by decide),
   (C4_consent_step 800 800 (newUser "p" "w" 0) "NO" (by decide)).2.1 (by decide),
   (C4_consent_step 800 800 (newUser "p" "w" 0) "maybe" (by decide)).2.2
     (by decide) (by decide)⟩

/-- Gestational-age branch, unparseable reply. -/
lemma hr_ga_parsefail (today now : Int) (u : User) (text : String)
    (h1 : ¬ u.consent_given = false) (h2 : ¬ u.name = none)
    (h3 : u.gestational_age_at_enrollment = none)
    (hp : parseFirstTokenInt (pyLower (pyStrip text)) = none) :
    handle_registration today now u text = (u, [GA_REPROMPT]) := by
  simp only [handle_registration]
  rw [if_neg h1, if_neg h2, if_pos h3, hp]

/-- Gestational-age branch, out-of-range value. -/
lemma hr_ga_outofrange (today now : Int) (u : User) (text : String) (w : Int)
    (h1 : ¬ u.consent_given = false) (h2 : ¬ u.name = none)
    (h3 : u.gestational_age_at_enrollment = none)
    (hp : parseFirstTokenInt (pyLower (pyStrip text)) = some w)
    (hrange : w < 1 ∨ 42 < w) :
    handle_registration today now u text = (u, [GA_REPROMPT]) := by
  simp only [handle_registration]
  rw [if_neg h1, if_neg h2, if_pos h3, hp]
  dsimp only
  rw [if_pos hrange]

/-- Gestational-age branch, valid value. -/
lemma hr_ga_valid (today now : Int) (u : User) (text : String) (w : Int)
    (h1 : ¬ u.consent_given = false) (h2 : ¬ u.name = none)
    (h3 : u.gestational_age_at_enrollment = none)
    (hp : parseFirstTokenInt (pyLower (pyStrip text)) = some w)
    (hrange : ¬ (w < 1 ∨ 42 < w)) :
    handle_registration today now u text =
      ({ u with gestational_age_at_enrollment := some w,
                expected_delivery_date := some (today + 7 * (40 - w)),
                registration_complete := true },
       [registeredMessage w (some (today + 7 * (40 - w)))]) := by
  simp only [handle_registration]
  rw [if_neg h1, if_neg h2, if_pos h3, hp]
  dsimp only
  rw [if_neg hrange]
  simp [set_gestational_age]

/-- Fully registered subscriber: the registration handler does nothing. -/
lemma hr_registered (today now : Int) (u : User) (text : String)
    (h1 : ¬ u.consent_given = false) (h2 : ¬ u.name = none)
    (h3 : ¬ u.gestational_age_at_enrollment = none) :
    handle_registration today now u text = (u, []) := by
  simp only [handle_registration]
  rw [if_neg h1, if_neg h2, if_neg h3]

/-- C5: registration is monotone — no registration step ever unsets a
previously set consent flag, name, enrollment gestational age, or
registration-complete flag, and the derived registration state never moves
back to an earlier state. -/
theorem C5_registration_monotone (today now : Int) (u : User) (text : String) :
    (u.consent_given = true →
      (handle_registration today now u text).1.consent_given = true) ∧
    (∀ n, u.name = some n → (handle_registration today now u text).1.name = some n) ∧
    (∀ g, u.gestational_age_at_enrollment = some g →
      (handle_registration today now u text).1.gestational_age_at_enrollment = some g) ∧
    (u.registration_complete = true →
      (handle_registration today now u text).1.registration_complete = true) ∧
    (registrationState u).rank ≤
      (registrationState (handle_registration today now u text).1).rank := by
  by_cases h1 : u.consent_given = false
  · have hs : registrationState u = .awaiting_consent := by
      unfold registrationState
      rw [if_pos h1]
    by_cases h2 : pyLower (pyStrip text) ∈ AFFIRMATIVE_TOKENS
    · rw [hr_consent_yes today now u text h1 h2]
      exact ⟨fun _ => rfl, fun n hn => hn, fun g hg => hg, fun hr => hr,
        hs ▸ Nat.zero_le _⟩
    · by_cases h3 : pyLower (pyStrip text) ∈ NEGATIVE_TOKENS
      · rw [hr_consent_no today now u text h1 h3]
        refine ⟨fun hct => hct, fun n hn => hn, fun g hg => hg, fun hr => hr, ?_⟩
        have : registrationState { u with is_active := false } =
            registrationState u := by
          unfold registrationState
          rfl
        rw [this]
      · rw [hr_consent_other today now u text h1 h2 h3]
        exact ⟨fun hct => hct, fun n hn => hn, fun g hg => hg, fun hr => hr, le_refl _⟩
  · by_cases h2 : u.name = none
    · rw [hr_name today now u text h1 h2]
      refine ⟨fun hct => hct, fun n hn => (by simp [h2] at hn : False).elim,
        fun g hg => hg, fun hr => hr, ?_⟩
      have hs : registrationState u = .awaiting_name := by
        unfold registrationState
        rw [if_neg h1, if_pos h2]
      rw [hs]
      unfold registrationState
      rw [if_neg h1, if_neg (by simp : ¬ (some (pyStrip text) = (none : Option String)))]
      split_ifs <;> simp [RegistrationState.rank]
    · by_cases h3 : u.gestational_age_at_enrollment = none
      · have hs : registrationState u = .awaiting_gestational_age := by
          unfold registrationState
          rw [if_neg h1, if_neg h2, if_pos h3]
        cases hp : parseFirstTokenInt (pyLower (pyStrip text)) with
        | none =>
          rw [hr_ga_parsefail today now u text h1 h2 h3 hp]
          exact ⟨fun hct => hct, fun n hn => hn, fun g hg => hg, fun hr => hr, le_refl _⟩
        | some w =>
          by_cases hrange : w < 1 ∨ 42 < w
          · rw [hr_ga_outofrange today now u text w h1 h2 h3 hp hrange]
            exact ⟨fun hct => hct, fun n hn => hn, fun g hg => hg, fun hr => hr,
              le_refl _⟩
          · rw [hr_ga_valid today now u text w h1 h2 h3 hp hrange]
            refine ⟨fun hct => hct, fun n hn => hn,
              fun g hg => (by simp [h3] at hg : False).elim, fun hr => rfl, ?_⟩
            have hs2 : registrationState
                { u with gestational_age_at_enrollment := some w,
                         expected_delivery_date := some (today + 7 * (40 - w)),
                         registration_complete := true } = .registered := by
              unfold registrationState
              rw [if_neg h1, if_neg h2]
              simp
            rw [hs, hs2]
            decide
      · rw [hr_registered today now u text h1 h2 h3]
        exact ⟨fun hct => hct, fun n hn => hn, fun g hg => hg, fun hr => hr, le_refl _⟩

/-- Witness for C5 at a concrete input: the gestational-age step of a
consented, named subscriber keeps consent set and does not decrease the
derived state. -/
theorem C5_registration_monotone_witness :
    (handle_registration 800 800 aminaUser "20").1.consent_given = true ∧
    (registrationState aminaUser).rank ≤
      (registrationState (handle_registration 800 800 aminaUser "20").1).rank :=
  ⟨(C5_registration_monotone 800 800 aminaUser "20").1 rfl,
   (C5_registration_monotone 800 800 aminaUser "20").2.2.2.2⟩

/-- C10: `current_gestational_age` is `None` exactly when the enrollment
gestational age is unset; otherwise it adds the whole weeks elapsed since
enrollment (days floor-divided by 7), with no upper bound — any bound
(42 in particular) is exceeded as time passes. -/
theorem C10_current_gestational_age (u : User) (now : Int) :
    (u.current_gestational_age now = none ↔
      u.gestational_age_at_enrollment = none) ∧
    (∀ ga, u.gestational_age_at_enrollment = some ga →
      u.current_gestational_age now =
        some (ga + Int.fdiv (now - u.enrolled_at) 7)) ∧
    (∀ ga bound, u.gestational_age_at_enrollment = some ga →
      ∃ later v, u.current_gestational_age later = some v ∧ bound < v) := by
  refine ⟨?_, ?_, ?_⟩
  · unfold User.current_gestational_age
    cases u.gestational_age_at_enrollment <;> simp
  · intro ga hga
    unfold User.current_gestational_age
    rw [hga]
  · intro ga bound hga
    refine ⟨u.enrolled_at + 7 * (bound - ga + 1), ga + (bound - ga + 1), ?_, by omega⟩
    unfold User.current_gestational_age
    rw [hga]
    have : u.enrolled_at + 7 * (bound - ga + 1) - u.enrolled_at =
        7 * (bound - ga + 1) := by ring
    rw [this, Int.mul_fdiv_cancel_left _ (by norm_num)]

/-- Witness for C10: a subscriber enrolled at 20 weeks reads 220 weeks
1400 days later — far beyond 42. -/
theorem C10_current_gestational_age_witness :
    (({ newUser "p" "w" 0 with gestational_age_at_enrollment := some 20 } :
        User).current_gestational_age 1400 = some 220) ∧
    ∃ later v,
      ({ newUser "p" "w" 0 with gestational_age_at_enrollment := some 20 } :
        User).current_gestational_age later = some v ∧ 42 < v :=
  ⟨by
    have h := (C10_current_gestational_age
      { newUser "p" "w" 0 with gestational_age_at_enrollment := some 20 } 1400).2.1
      20 rfl
    rw [h]
    decide,
   (C10_current_gestational_age
      { newUser "p" "w" 0 with gestational_age_at_enrollment := some 20 } 0).2.2
      20 42 rfl⟩

/-- C8: `generate_response` never propagates a failure: its reply is either
the stripped non-empty model text or the fixed fallback; on every failure
of the underlying call (raised error, missing text, empty text) it is the
fallback, which is the Swahili string when the language is "sw" and the
English string otherwise. -/
theorem C8_generate_response_never_raises (outcome : GenOutcome)
    (user_message language : String) (history : List String) :
    ((generate_response outcome user_message language history).1 =
        get_fallback_response language ∨
      ∃ s, outcome = .ok (some s) ∧ s ≠ "" ∧
        (generate_response outcome user_message language history).1 = pyStrip s) ∧
    (outcome = .error ∨ outcome = .ok none ∨ outcome = .ok (some "") →
      (generate_response outcome user_message language history).1 =
        get_fallback_response language) ∧
    (language = "sw" → get_fallback_response language = FALLBACK_SW) ∧
    (language ≠ "sw" → get_fallback_response language = FALLBACK_EN) := by
  refine ⟨?_, ?_, ?_, ?_⟩
  · cases outcome with
    | error => exact Or.inl rfl
    | ok t =>
      cases t with
      | none => exact Or.inl rfl
      | some s =>
        by_cases hs : s = ""
        · subst hs
          exact Or.inl rfl
        · refine Or.inr ⟨s, rfl, hs, ?_⟩
          simp [generate_response, hs]
  · rintro (rfl | rfl | rfl) <;> rfl
  · intro hsw
    simp [get_fallback_response, hsw]
  · intro hsw
    simp [get_fallback_response, hsw]

/-- Witness for C8: a raised generative call in Swahili yields exactly the
Swahili fallback string. -/
theorem C8_generate_response_never_raises_witness :
    (generate_response .error "hello" "sw" []).1 = FALLBACK_SW := by
  have h := C8_generate_response_never_raises .error "hello" "sw" []
  rw [h.2.1 (Or.inl rfl), h.2.2.1 rfl]

/-- C7 counterexample: when the underlying generative call raises, the
reply produced is the fallback string, yet the conversation turn is *not*
appended to the context store — the `except` branch returns before
`_store_conversation_turn`, so the context window is unchanged and the
turn is absent from it. -/
theorem C7_fallback_turn_not_stored :
    (generate_response .error "hi" "en" []).1 = get_fallback_response "en" ∧
    (generate_response .error "hi" "en" []).2 = [] ∧
    ("User: hi\nAssistant: " ++ get_fallback_response "en") ∉
      (generate_response .error "hi" "en" []).2 := by
  refine ⟨rfl, rfl, ?_⟩
  intro hmem
  exact List.not_mem_nil _ hmem

/-- C7 (amended): whenever the generative call *returns* — including the
in-band fallback cases of a missing or empty response text — the turn
(user message plus produced reply) is appended to the context store and is
present, newest first, in the context window afterwards; but when the call
raises, the fallback reply is returned without appending. -/
theorem C7_store_on_return (user_message language : String)
    (history : List String) (t : Option String) :
    ((generate_response (.ok t) user_message language history).2 =
      store_conversation_turn history user_message
        (generate_response (.ok t) user_message language history).1) ∧
    (("User: " ++ user_message ++ "\nAssistant: " ++
        (generate_response (.ok t) user_message language history).1) ∈
      (generate_response (.ok t) user_message language history).2) ∧
    ((generate_response .error user_message language history).2 = history) := by
  refine ⟨?_, ?_, rfl⟩
  · cases t with
    | none => rfl
    | some s =>
      by_cases hs : s = ""
      · subst hs
        rfl
      · simp [generate_response, hs]
  · have h2 : (generate_response (.ok t) user_message language history).2 =
        store_conversation_turn history user_message
          (generate_response (.ok t) user_message language history).1 := by
      cases t with
      | none => rfl
      | some s =>
        by_cases hs : s = ""
        · subst hs
          rfl
        · simp [generate_response, hs]
    rw [h2]
    have htake : store_conversation_turn history user_message
        (generate_response (.ok t) user_message language history).1 =
        ("User: " ++ user_message ++ "\nAssistant: " ++
          (generate_response (.ok t) user_message language history).1) ::
          List.take 5 history := rfl
    rw [htake]
    exact List.mem_cons_self _ _

/-- C9: the POST webhook handler acknowledges every delivery with HTTP 200 —
on a signature mismatch, on a payload that parses to no message, and when
downstream message processing raises — never with a non-success status. -/
theorem C9_webhook_always_acknowledges (secretConfigured sigValid : Bool)
    (parsed : Option WhatsAppMessage) (processingRaises : Bool) :
    (receive_webhook secretConfigured sigValid parsed processingRaises).statusCode =
      200 := by
  unfold receive_webhook
  split_ifs <;> (try rfl) <;> cases parsed <;> rfl

end Zeya
